import Mathlib

/-!
Shallow embedding of the redwood background-job core:
`src/packages/jobs/src/core/Executor.ts` and
`src/packages/jobs/src/bins/rw-jobs-worker.ts`.

External collaborators (JSON.parse, loadJob from '../loaders', the adapter,
the logger) are modelled as parameters of the embedding, following the spec,
which treats them as interface boundaries.  Machine effects (adapter calls,
process exit, logging) are made explicit as returned traces of events.
-/

namespace Redwood

/-- A value thrown in JS, as observed by a `catch` block.  `message` is
`some s` when reading `.message` on the thrown value yields the string `s`;
it is `none` for any thrown value whose `message` property is not a string
(a thrown string, `null`, a plain object, a numeric message, ...), in which
case evaluating `.message.match(...)` itself throws a TypeError. -/
structure Thrown where
  message : Option String
deriving DecidableEq

/-- Result of `JSON.parse(this.job.handler)` (Executor.ts line 65): a handler
name and a positional argument list, mirroring `details.handler` and
`details.args`. -/
structure HandlerDetails where
  handler : String
  args : List String
deriving DecidableEq

/-- A job record as consumed by the core: an id (used for logging) and the
serialized handler descriptor string (Executor.ts `job.id`, `job.handler`). -/
structure Job where
  id : Nat
  handler : String
deriving DecidableEq

/-- The error reported to `adapter.failure`: either the original caught value
or the re-wrapped `JobExportNotFoundError` carrying the attempted handler
name (Executor.ts lines 73-76). -/
inductive ReportedError where
  | original (e : Thrown)
  | jobExportNotFoundError (handlerName : String)
deriving DecidableEq

/-- Logger reference stored on the Executor.  `console` is the default from
`DEFAULTS` (Executor.ts line 32); `custom` stands for any caller-supplied
logger object. -/
inductive LoggerRef where
  | console
  | custom (id : Nat)
deriving DecidableEq

/-- Modelled from the spec: `DEFAULT_MAX_ATTEMPTS` comes from '../consts',
which is not under src/; the spec calls it "a fixed system default" and no
claim depends on its numeric value. -/
def DEFAULT_MAX_ATTEMPTS : Nat := 24

/-- Modelled from the spec: `DEFAULT_DELETE_FAILED_JOBS` comes from
'../consts', not under src/; the spec calls it "a fixed system default
(boolean)" and no claim depends on its value. -/
def DEFAULT_DELETE_FAILED_JOBS : Bool := false

/-- The adapter collaborator (spec section 6): `success` and `failure` return
a result of type `R`.  The adapter is external to this core and its contract
returns a result, so its operations are modelled as total functions. -/
structure Adapter (R : Type) where
  success : Job → R
  failure : Job → ReportedError → Option Nat → Option Bool → R

/-- A JS object field as written by a caller: the key can be absent from the
object, present with value `undefined`, or present with a real value.  The
distinction matters because object spread `\x7b ...DEFAULTS, ...options \x7d`
copies own enumerable keys including ones whose value is `undefined`. -/
inductive Field (α : Type) where
  | absent
  | undef
  | val (a : α)
deriving DecidableEq

/-- The `Options` object passed to the Executor constructor
(Executor.ts lines 15-21).  `adapter` and `job` have no entry in `DEFAULTS`,
so for them absent and undefined merge identically. -/
structure Options (R : Type) where
  adapter : Field (Adapter R)
  job : Field Job
  logger : Field LoggerRef
  maxAttempts : Field Nat
  deleteFailedJobs : Field Bool

/-- `DEFAULTS` (Executor.ts lines 31-35). -/
structure DefaultOptions where
  logger : LoggerRef
  maxAttempts : Nat
  deleteFailedJobs : Bool

def DEFAULTS : DefaultOptions :=
  { logger := LoggerRef.console
    maxAttempts := DEFAULT_MAX_ATTEMPTS
    deleteFailedJobs := DEFAULT_DELETE_FAILED_JOBS }

/-- JS object spread semantics for one key of
`\x7b ...DEFAULTS, ...options \x7d` (Executor.ts line 46): a key present in
`options` overrides the default even when its value is `undefined`; only an
absent key falls back to the default.  `none` models a stored `undefined`. -/
def overrideField {α : Type} (dflt : Option α) (f : Field α) : Option α :=
  match f with
  | Field.absent => dflt
  | Field.undef => none
  | Field.val a => some a

/-- The merged `this.options` after line 46.  `adapter` and `job` have no
default, so they come from the caller options alone. -/
structure CompleteOptions (R : Type) where
  adapter : Option (Adapter R)
  job : Option Job
  logger : Option LoggerRef
  maxAttempts : Option Nat
  deleteFailedJobs : Option Bool

def mergeOptions {R : Type} (o : Options R) : CompleteOptions R :=
  { adapter := overrideField none o.adapter
    job := overrideField none o.job
    logger := overrideField (some DEFAULTS.logger) o.logger
    maxAttempts := overrideField (some DEFAULTS.maxAttempts) o.maxAttempts
    deleteFailedJobs :=
      overrideField (some DEFAULTS.deleteFailedJobs) o.deleteFailedJobs }

/-- Configuration errors thrown synchronously by the constructor
(Executor.ts lines 49-54). -/
inductive ConfigError where
  | adapterRequiredError
  | jobRequiredError
deriving DecidableEq

/-- The constructed Executor instance fields (Executor.ts lines 37-43 and
56-60).  `logger`, `maxAttempts` and `deleteFailedJobs` are `Option`s because
a caller-supplied explicit `undefined` is stored as-is (see `overrideField`).
The truthiness checks on lines 49 and 52 are modelled as `Option.isNone`:
absent and undefined are the falsy cases the claims are about. -/
structure Executor (R : Type) where
  adapter : Adapter R
  logger : Option LoggerRef
  job : Job
  maxAttempts : Option Nat
  deleteFailedJobs : Option Bool

/-- The Executor constructor (Executor.ts lines 45-61): merge options over
defaults, check adapter then job, then copy fields.  It is a pure function of
the options object alone: no `PerformEnv` (parsing, loading, invoking) and no
adapter operation appears in its definition, so no job logic can run during
construction. -/
def Executor.construct {R : Type} (o : Options R) :
    Except ConfigError (Executor R) :=
  let opts := mergeOptions o
  match opts.adapter with
  | none => Except.error ConfigError.adapterRequiredError
  | some adapter =>
    match opts.job with
    | none => Except.error ConfigError.jobRequiredError
    | some job =>
      Except.ok
        { adapter := adapter
          logger := opts.logger
          job := job
          maxAttempts := opts.maxAttempts
          deleteFailedJobs := opts.deleteFailedJobs }

/-- Environment of external collaborators used by `perform`:
`jsonParse` models `JSON.parse` (node builtin), `loadJob` models the
'../loaders' collaborator (Executor.ts line 69), and `invoke` models
`new jobModule[details.handler]().perform(...details.args)` (line 70) on a
loaded module of abstract type `M` — property access, construction and the
awaited `perform` call, any of which may throw. -/
structure PerformEnv (M : Type) where
  jsonParse : String → Except Thrown HandlerDetails
  loadJob : String → Except Thrown M
  invoke : M → String → List String → Except Thrown Unit

/-- The body of the `try` block up to just before `adapter.success`
(Executor.ts lines 69-70). -/
def tryBody {M : Type} (env : PerformEnv M) (details : HandlerDetails) :
    Except Thrown Unit :=
  match env.loadJob details.handler with
  | Except.error e => Except.error e
  | Except.ok m => env.invoke m details.handler details.args

/-- Whether `pat` occurs at the front of `cs`. -/
def charsMatchHere : List Char → List Char → Bool
  | [], _ => true
  | _ :: _, [] => false
  | p :: ps, c :: cs => p == c && charsMatchHere ps cs

/-- Whether `pat` occurs anywhere in `cs`. -/
def charsOccur (pat : List Char) : List Char → Bool
  | [] => charsMatchHere pat []
  | c :: cs => charsMatchHere pat (c :: cs) || charsOccur pat cs

/-- The regex test `e.message.match(/is not a constructor/)` on a string
message (Executor.ts line 74): the pattern has no anchors and no
metacharacters, so it is a substring occurrence test. -/
def isNotAConstructorMessage (msg : String) : Bool :=
  charsOccur ("is not a constructor".toList) msg.toList

/-- The TypeError raised when `e.message.match` is evaluated on a caught
value whose `message` is not a string (Executor.ts line 74). -/
def messageMatchTypeError : Thrown :=
  { message := some "e.message.match is not a function" }

/-- Recorded adapter invocation: what `perform` observably did to the
adapter, including the arguments of `adapter.failure` (Executor.ts
lines 71 and 78-81). -/
inductive AdapterCall where
  | success (job : Job)
  | failure (job : Job) (error : ReportedError) (maxAttempts : Option Nat)
      (deleteFailedJobs : Option Bool)
deriving DecidableEq

/-- The job argument carried by an adapter call. -/
def AdapterCall.jobOf : AdapterCall → Job
  | AdapterCall.success j => j
  | AdapterCall.failure j _ _ _ => j

/-- `Executor.perform` (Executor.ts lines 63-83), returning the value
returned (or the value thrown, as `Except.error`) together with the ordered
list of adapter calls it made.

Line by line: line 64 logs job start (no adapter effect); line 65 runs
`JSON.parse(this.job.handler)` OUTSIDE the try/catch, so a parse error
propagates out with no adapter call; lines 68-71 run the try body and on
success return `adapter.success(job)`; lines 72-81 catch, classify via
`e.message.match` (which itself throws when `message` is not a string),
log, and return `adapter.failure(job, error, opts)`. -/
def Executor.perform {M R : Type} (env : PerformEnv M) (ex : Executor R) :
    Except Thrown R × List AdapterCall :=
  match env.jsonParse ex.job.handler with
  | Except.error e => (Except.error e, [])
  | Except.ok details =>
    match tryBody env details with
    | Except.ok _ =>
        (Except.ok (ex.adapter.success ex.job), [AdapterCall.success ex.job])
    | Except.error e =>
      match e.message with
      | none => (Except.error messageMatchTypeError, [])
      | some msg =>
        let error :=
          if isNotAConstructorMessage msg then
            ReportedError.jobExportNotFoundError details.handler
          else
            ReportedError.original e
        (Except.ok
            (ex.adapter.failure ex.job error ex.maxAttempts
              ex.deleteFailedJobs),
          [AdapterCall.failure ex.job error ex.maxAttempts
            ex.deleteFailedJobs])

/-!
Embedding of the worker process entry point,
`src/packages/jobs/src/bins/rw-jobs-worker.ts`.
-/

/-- An observable action of the worker process: logging and `process.exit`.
`logError` carries an identifier of the logged error object;
`exit` carries the exit code. -/
inductive BinAction where
  | logError (e : Nat)
  | logInfo (msg : String)
  | logWarn (msg : String)
  | exit (code : Nat)
deriving DecidableEq

/-- The mutable Worker state visible to the signal handlers
(rw-jobs-worker.ts lines 107-114 construct it; the spec section 3 lists its
fields): the `forever` flag gating loop continuation, plus the construction
options the handlers must leave untouched. -/
structure WorkerHandle where
  forever : Bool
  queue : Option String
  workoff : Bool
  clear : Bool
deriving DecidableEq

/-- The SIGINT handler (rw-jobs-worker.ts lines 69-74): log a warning and set
`worker.forever = false`; no `process.exit` call. -/
def onSIGINT (w : WorkerHandle) : WorkerHandle × List BinAction :=
  ({ w with forever := false },
    [BinAction.logWarn "SIGINT received, finishing work..."])

/-- The SIGTERM handler (rw-jobs-worker.ts lines 79-84): log and exit with
code 0 unconditionally, regardless of the worker state. -/
def onSIGTERM (w : WorkerHandle) : WorkerHandle × List BinAction :=
  (w, [BinAction.logInfo "SIGTERM received, exiting now!",
    BinAction.exit 0])

/-- `main` (rw-jobs-worker.ts lines 87-122) as a function of the outcome of
`loadAdapter()` and of whatever actions `worker.run()` performs
(core/Worker.ts is not under src/, so the run actions are an abstract
parameter).  Lines 96-101: if `loadAdapter` throws, log the error and exit
with code 1 — the Worker is never constructed, so `workerRun` does not
appear in that branch.  Lines 103-119: otherwise log start, run the worker,
and on resolution of `run()` log completion and exit with code 0. -/
def mainActions (load : Except Nat Unit) (workerRun : List BinAction) :
    List BinAction :=
  match load with
  | Except.error e => [BinAction.logError e, BinAction.exit 1]
  | Except.ok _ =>
    BinAction.logInfo "Starting work..." ::
      (workerRun ++
        [BinAction.logInfo "Worker finished, shutting down.",
          BinAction.exit 0])

/-!
The Worker claim loop, needed to express when the `forever` flag is
observed.  core/Worker.ts is not under src/.
-/

/-- An observable event of the worker loop: a claimed job starting, a claimed
job finishing (its outcome having been reported through the Executor), or an
idle poll when no job was claimable. -/
inductive WorkerEvent where
  | started (id : Nat)
  | finished (id : Nat)
  | idle
deriving DecidableEq

/-- Modelled from the spec: the Worker.run claim loop of core/Worker.ts,
which is not under src/.  Spec sections 4.2 and 5: each iteration observes
`forever` at the loop boundary, claims the next job (`jobs i` is the claim
result at iteration `i`), awaits the claimed job to completion before
anything else happens, and only between job executions can a delivered
SIGINT (`sigint i` true when one arrives during iteration `i`, flipping
`forever` via `onSIGINT`) be observed.  `fuel` bounds the number of
iterations so the model is total. -/
def workerLoop (jobs : Nat → Option Nat) (sigint : Nat → Bool)
    (forever : Bool) (i fuel : Nat) : List WorkerEvent :=
  match fuel with
  | 0 => []
  | fuel + 1 =>
    if forever then
      match jobs i with
      | some id =>
        WorkerEvent.started id :: WorkerEvent.finished id ::
          workerLoop jobs sigint (forever && !sigint i) (i + 1) fuel
      | none =>
        WorkerEvent.idle ::
          workerLoop jobs sigint (forever && !sigint i) (i + 1) fuel
    else []

/-!
Concrete fixtures used to evaluate the embedding on the spec's sample
scenario (job id 42, handler SendWelcomeEmailJob).
-/

/-- A concrete adapter whose results record which operation ran:
`success` returns the job id, `failure` returns the job id plus 100. -/
def natAdapter : Adapter Nat :=
  { success := fun j => j.id
    failure := fun j _ _ _ => j.id + 100 }

def sampleJob : Job :=
  { id := 42, handler := "serialized handler descriptor" }

def sampleDetails : HandlerDetails :=
  { handler := "SendWelcomeEmailJob", args := ["7"] }

def sampleExecutor : Executor Nat :=
  { adapter := natAdapter
    logger := some LoggerRef.console
    job := sampleJob
    maxAttempts := some 24
    deleteFailedJobs := some false }

/-- The error thrown by `JSON.parse` on a malformed handler string. -/
def parseError : Thrown :=
  { message := some "Unexpected token s in JSON at position 0" }

/-- Environment where `JSON.parse(this.job.handler)` throws. -/
def badParseEnv : PerformEnv Unit :=
  { jsonParse := fun _ => Except.error parseError
    loadJob := fun _ => Except.ok ()
    invoke := fun _ _ _ => Except.ok () }

/-- Environment where parsing, loading and invocation all succeed. -/
def goodEnv : PerformEnv Unit :=
  { jsonParse := fun _ => Except.ok sampleDetails
    loadJob := fun _ => Except.ok ()
    invoke := fun _ _ _ => Except.ok () }

/-- A handler-execution error with an ordinary string message. -/
def boomError : Thrown := { message := some "boom" }

/-- Environment where the invoked handler throws `boomError`. -/
def failMsgEnv : PerformEnv Unit :=
  { jsonParse := fun _ => Except.ok sampleDetails
    loadJob := fun _ => Except.ok ()
    invoke := fun _ _ _ => Except.error boomError }

/-- The TypeError raised when the resolved export is not a constructor. -/
def notCtorError : Thrown :=
  { message := some "TypeError: SendWelcomeEmailJob is not a constructor" }

/-- Environment where instantiating the handler throws `notCtorError`. -/
def notCtorEnv : PerformEnv Unit :=
  { jsonParse := fun _ => Except.ok sampleDetails
    loadJob := fun _ => Except.ok ()
    invoke := fun _ _ _ => Except.error notCtorError }

/-- Environment where handler loading throws a value with no string
message, such as a thrown plain string or object. -/
def noMessageEnv : PerformEnv Unit :=
  { jsonParse := fun _ => Except.ok sampleDetails
    loadJob := fun _ => Except.error { message := none }
    invoke := fun _ _ _ => Except.ok () }

/-- Environment where the invoked handler throws a value with no string
message. -/
def thrownStringEnv : PerformEnv Unit :=
  { jsonParse := fun _ => Except.ok sampleDetails
    loadJob := fun _ => Except.ok ()
    invoke := fun _ _ _ => Except.error { message := none } }

/-- Constructor options lacking an adapter. -/
def optionsNoAdapter : Options Nat :=
  { adapter := Field.absent
    job := Field.val sampleJob
    logger := Field.absent
    maxAttempts := Field.absent
    deleteFailedJobs := Field.absent }

/-- Constructor options with an adapter but lacking a job. -/
def optionsNoJob : Options Nat :=
  { adapter := Field.val natAdapter
    job := Field.absent
    logger := Field.absent
    maxAttempts := Field.absent
    deleteFailedJobs := Field.absent }

/-- Constructor options passing explicit undefined for every key that has an
entry in `DEFAULTS`. -/
def optionsUndefAll : Options Nat :=
  { adapter := Field.val natAdapter
    job := Field.val sampleJob
    logger := Field.undef
    maxAttempts := Field.undef
    deleteFailedJobs := Field.undef }

/-!
Theorems.
-/

/-- C1 counterexample: for the concrete job 42 and an environment in which
`JSON.parse(this.job.handler)` throws (step 2, Executor.ts line 65, which
sits outside the try/catch), `perform` propagates the parse error out and
makes no adapter call at all, contradicting the claim that every step 2-4
error is converted into an `adapter.failure` call and contained. -/
theorem perform_parse_error_escapes :
    Executor.perform badParseEnv sampleExecutor = (Except.error parseError, []) :=
  rfl

/-- C1 (amended): an error raised inside the try block (steps 3-4: handler
loading, instantiation, invocation) whose caught value carries a string
message is contained in `perform`: it is converted into a call to
`adapter.failure` with the executor's job, maxAttempts and deleteFailedJobs,
whose result is returned. -/
theorem perform_contains_try_errors {M R : Type} (env : PerformEnv M)
    (ex : Executor R) (details : HandlerDetails) (e : Thrown) (msg : String)
    (hp : env.jsonParse ex.job.handler = Except.ok details)
    (ht : tryBody env details = Except.error e)
    (hm : e.message = some msg) :
    ∃ err : ReportedError,
      Executor.perform env ex =
        (Except.ok
            (ex.adapter.failure ex.job err ex.maxAttempts ex.deleteFailedJobs),
          [AdapterCall.failure ex.job err ex.maxAttempts
            ex.deleteFailedJobs]) := by
  refine ⟨if isNotAConstructorMessage msg then
      ReportedError.jobExportNotFoundError details.handler
    else ReportedError.original e, ?_⟩
  simp only [Executor.perform, hp, ht, hm]

/-- C1 witness: a handler that throws an Error with message "boom" is
contained and reported through `adapter.failure`. -/
theorem perform_contains_try_errors_witness :
    ∃ err : ReportedError,
      Executor.perform failMsgEnv sampleExecutor =
        (Except.ok
            (sampleExecutor.adapter.failure sampleExecutor.job err
              sampleExecutor.maxAttempts sampleExecutor.deleteFailedJobs),
          [AdapterCall.failure sampleExecutor.job err
            sampleExecutor.maxAttempts sampleExecutor.deleteFailedJobs]) :=
  perform_contains_try_errors failMsgEnv sampleExecutor sampleDetails
    boomError "boom" rfl rfl rfl

/-- C2 counterexample: a `perform` execution in which neither
`adapter.success` nor `adapter.failure` is invoked — the handler loader
throws a value without a string message, so the classification on line 74
itself throws before any adapter call. -/
theorem perform_can_call_no_adapter :
    Executor.perform noMessageEnv sampleExecutor =
      (Except.error messageMatchTypeError, []) :=
  rfl

/-- C2 (amended): every `perform` execution makes at most one adapter call,
and it makes exactly one if and only if `perform` returns normally; in the
escaping executions (parse error on line 65, or a caught value without a
string message on line 74) no adapter call is made. -/
theorem perform_adapter_call_count {M R : Type} (env : PerformEnv M)
    (ex : Executor R) :
    (Executor.perform env ex).2.length ≤ 1 ∧
      ((∃ r : R, (Executor.perform env ex).1 = Except.ok r) ↔
        (Executor.perform env ex).2.length = 1) := by
  rcases hp : env.jsonParse ex.job.handler with e | details
  · simp [Executor.perform, hp]
  · rcases ht : tryBody env details with e | u
    · rcases hm : e.message with _ | msg
      · simp [Executor.perform, hp, ht, hm]
      · simp [Executor.perform, hp, ht, hm]
    · simp [Executor.perform, hp, ht]

/-- C3: when the handler descriptor parses, the handler module loads, and
the handler's `perform` entry point completes without throwing, `perform`
calls `adapter.success` exactly once with the executor's job, returns its
result, and never calls `adapter.failure`. -/
theorem perform_success_path {M R : Type} (env : PerformEnv M)
    (ex : Executor R) (details : HandlerDetails) (m : M)
    (hp : env.jsonParse ex.job.handler = Except.ok details)
    (hl : env.loadJob details.handler = Except.ok m)
    (hi : env.invoke m details.handler details.args = Except.ok ()) :
    Executor.perform env ex =
      (Except.ok (ex.adapter.success ex.job),
        [AdapterCall.success ex.job]) := by
  simp only [Executor.perform, tryBody, hp, hl, hi]

/-- C3 witness: the spec's sample scenario — job id 42, handler
SendWelcomeEmailJob resolving and completing — yields `adapter.success`
(result 42 for `natAdapter`) and no failure call. -/
theorem perform_success_path_witness :
    Executor.perform goodEnv sampleExecutor =
      (Except.ok 42, [AdapterCall.success sampleJob]) :=
  perform_success_path goodEnv sampleExecutor sampleDetails () rfl rfl rfl

/-- C4: for every error caught inside `perform` whose `message` is a string,
the reported error is `JobExportNotFoundError` carrying the attempted
handler name exactly when the message contains "is not a constructor"
(whatever the surrounding text), and is the original caught value
otherwise. -/
theorem perform_error_classification {M R : Type} (env : PerformEnv M)
    (ex : Executor R) (details : HandlerDetails) (e : Thrown) (msg : String)
    (hp : env.jsonParse ex.job.handler = Except.ok details)
    (ht : tryBody env details = Except.error e)
    (hm : e.message = some msg) :
    Executor.perform env ex =
      (Except.ok
          (ex.adapter.failure ex.job
            (if isNotAConstructorMessage msg then
              ReportedError.jobExportNotFoundError details.handler
            else ReportedError.original e)
            ex.maxAttempts ex.deleteFailedJobs),
        [AdapterCall.failure ex.job
          (if isNotAConstructorMessage msg then
            ReportedError.jobExportNotFoundError details.handler
          else ReportedError.original e)
          ex.maxAttempts ex.deleteFailedJobs]) := by
  simp only [Executor.perform, hp, ht, hm]

/-- C4 witness: the spec's second sample scenario — the handler throws
"TypeError: SendWelcomeEmailJob is not a constructor" — reports a
`JobExportNotFoundError` carrying the attempted handler name to
`adapter.failure` (result 142 for `natAdapter`). -/
theorem perform_error_classification_witness :
    Executor.perform notCtorEnv sampleExecutor =
      (Except.ok 142,
        [AdapterCall.failure sampleJob
          (ReportedError.jobExportNotFoundError "SendWelcomeEmailJob")
          (some 24) (some false)]) := by
  have h := perform_error_classification notCtorEnv sampleExecutor
    sampleDetails notCtorError
    "TypeError: SendWelcomeEmailJob is not a constructor" rfl rfl rfl
  rw [h]
  rfl

/-- C5: the constructor checks its options synchronously — a missing
(absent or undefined) adapter raises `AdapterRequiredError`; an adapter with
a missing job raises `JobRequiredError`; with both present it returns the
populated instance.  `Executor.construct` is a pure function of the options
alone: its definition mentions no `PerformEnv` (parsing, loading, invoking)
and no adapter operation, so no job logic can run during construction. -/
theorem construct_validates {R : Type} (o : Options R) :
    ((o.adapter = Field.absent ∨ o.adapter = Field.undef) →
        Executor.construct o =
          Except.error ConfigError.adapterRequiredError) ∧
    (∀ a : Adapter R, o.adapter = Field.val a →
      (o.job = Field.absent ∨ o.job = Field.undef) →
        Executor.construct o = Except.error ConfigError.jobRequiredError) ∧
    (∀ (a : Adapter R) (j : Job),
      o.adapter = Field.val a → o.job = Field.val j →
        Executor.construct o = Except.ok
          { adapter := a
            logger := (mergeOptions o).logger
            job := j
            maxAttempts := (mergeOptions o).maxAttempts
            deleteFailedJobs := (mergeOptions o).deleteFailedJobs }) := by
  refine ⟨?_, ?_, ?_⟩
  · intro h
    rcases h with h | h <;>
      simp [Executor.construct, mergeOptions, overrideField, h]
  · intro a ha hj
    rcases hj with hj | hj <;>
      simp [Executor.construct, mergeOptions, overrideField, ha, hj]
  · intro a j ha hj
    simp [Executor.construct, mergeOptions, overrideField, ha, hj]

/-- C5 witness: concrete options without an adapter fail with
`AdapterRequiredError`, and options with an adapter but no job fail with
`JobRequiredError`. -/
theorem construct_validates_witness :
    Executor.construct optionsNoAdapter =
        Except.error ConfigError.adapterRequiredError ∧
      Executor.construct optionsNoJob =
        Except.error ConfigError.jobRequiredError :=
  ⟨(construct_validates optionsNoAdapter).1 (Or.inl rfl),
    (construct_validates optionsNoJob).2.1 natAdapter rfl (Or.inl rfl)⟩

/-- C6: `perform` never alters the job — every adapter call it makes carries
exactly the job value held by the Executor since construction.  The
embedding is pure state passing: `perform` takes the executor by value and
returns only a result and a call trace, mirroring that Executor.ts contains
no assignment to `this.job` or its fields. -/
theorem perform_preserves_job {M R : Type} (env : PerformEnv M)
    (ex : Executor R) :
    ∀ c ∈ (Executor.perform env ex).2, c.jobOf = ex.job := by
  intro c hc
  rcases hp : env.jsonParse ex.job.handler with e | details
  · simp [Executor.perform, hp] at hc
  · rcases ht : tryBody env details with e | u
    · rcases hm : e.message with _ | msg
      · simp [Executor.perform, hp, ht, hm] at hc
      · simp [Executor.perform, hp, ht, hm] at hc
        subst hc
        rfl
    · simp [Executor.perform, hp, ht] at hc
      subst hc
      rfl

/-- C6 witness: the success call of the sample scenario carries the very
job the executor was constructed with. -/
theorem perform_preserves_job_witness :
    AdapterCall.jobOf (AdapterCall.success sampleJob) = sampleJob :=
  perform_preserves_job goodEnv sampleExecutor
    (AdapterCall.success sampleJob) (List.Mem.head _)

/-- C7: process exit codes.  If `loadAdapter()` throws, `main` logs the
error and exits with code 1, performing nothing else — in particular none of
the worker-run actions happen before the exit.  If the adapter loads, the
process performs the worker run and exits with code 0 as its final action
when `run()` resolves.  The SIGTERM handler exits with code 0 immediately
and unconditionally, whatever the worker state. -/
theorem worker_exit_codes :
    (∀ (e : Nat) (workerRun : List BinAction),
        mainActions (Except.error e) workerRun =
          [BinAction.logError e, BinAction.exit 1]) ∧
    (∀ workerRun : List BinAction, ∃ before : List BinAction,
        mainActions (Except.ok ()) workerRun =
          before ++ [BinAction.exit 0]) ∧
    (∀ w : WorkerHandle,
        (onSIGTERM w).2 =
            [BinAction.logInfo "SIGTERM received, exiting now!",
              BinAction.exit 0] ∧
          (onSIGTERM w).1 = w) := by
  refine ⟨fun e workerRun => rfl, fun workerRun => ?_, fun w => ⟨rfl, rfl⟩⟩
  refine ⟨BinAction.logInfo "Starting work..." ::
    (workerRun ++ [BinAction.logInfo "Worker finished, shutting down."]), ?_⟩
  simp [mainActions]

/-- The worker loop stops at the boundary once `forever` is false. -/
theorem workerLoop_stopped (jobs : Nat → Option Nat) (sigint : Nat → Bool)
    (i fuel : Nat) : workerLoop jobs sigint false i fuel = [] := by
  cases fuel <;> simp [workerLoop]

/-- C8: cooperative SIGINT handling.  The handler only logs a warning and
clears `forever` — it performs no `process.exit` and leaves every other
worker field unchanged.  In the (spec-modelled) loop, a SIGINT delivered
during an iteration that claimed a job lets that job run to completion
(`started` immediately followed by `finished`) and takes effect only at the
next loop boundary, where no further claim occurs. -/
theorem sigint_cooperative :
    (∀ w : WorkerHandle,
        onSIGINT w =
          ({ w with forever := false },
            [BinAction.logWarn "SIGINT received, finishing work..."])) ∧
    (∀ (jobs : Nat → Option Nat) (sigint : Nat → Bool) (i fuel id : Nat),
      sigint i = true → jobs i = some id →
        workerLoop jobs sigint true i (fuel + 1) =
          [WorkerEvent.started id, WorkerEvent.finished id]) := by
  refine ⟨fun w => rfl, fun jobs sigint i fuel id hs hj => ?_⟩
  simp [workerLoop, hj, hs, workerLoop_stopped]

/-- C8 witness: with a SIGINT arriving during the first iteration while job
7 is in flight, the loop finishes job 7 and claims nothing more. -/
theorem sigint_cooperative_witness :
    workerLoop (fun _ => some 7) (fun _ => true) true 0 3 =
      [WorkerEvent.started 7, WorkerEvent.finished 7] :=
  sigint_cooperative.2 (fun _ => some 7) (fun _ => true) 0 2 7 rfl rfl

/-- C9: when the try block raises a value whose `message` is not a string,
evaluating `e.message.match` on line 74 itself throws, so `perform`
propagates that TypeError and calls neither `adapter.success` nor
`adapter.failure`. -/
theorem perform_nonstring_message_escapes {M R : Type} (env : PerformEnv M)
    (ex : Executor R) (details : HandlerDetails) (e : Thrown)
    (hp : env.jsonParse ex.job.handler = Except.ok details)
    (ht : tryBody env details = Except.error e)
    (hm : e.message = none) :
    Executor.perform env ex = (Except.error messageMatchTypeError, []) := by
  simp only [Executor.perform, hp, ht, hm]

/-- C9 witness: a handler that throws a plain string (no `message` string
property) makes `perform` escape with the classification TypeError and an
empty adapter-call trace. -/
theorem perform_nonstring_message_escapes_witness :
    Executor.perform thrownStringEnv sampleExecutor =
      (Except.error messageMatchTypeError, []) :=
  perform_nonstring_message_escapes thrownStringEnv sampleExecutor
    sampleDetails { message := none } rfl rfl rfl

/-- C10: the spread-based defaults are presence-based, not
definedness-based.  With adapter and job supplied, construction succeeds,
and for each of `logger`, `maxAttempts`, `deleteFailedJobs`: an absent key
stores the documented default, while a key explicitly set to `undefined`
stores `undefined` (`none`) instead of the default. -/
theorem explicit_undefined_skips_defaults {R : Type} (o : Options R)
    (a : Adapter R) (j : Job)
    (ha : o.adapter = Field.val a) (hj : o.job = Field.val j) :
    ∃ ex : Executor R, Executor.construct o = Except.ok ex ∧
      (o.logger = Field.undef → ex.logger = none) ∧
      (o.logger = Field.absent → ex.logger = some DEFAULTS.logger) ∧
      (o.maxAttempts = Field.undef → ex.maxAttempts = none) ∧
      (o.maxAttempts = Field.absent →
        ex.maxAttempts = some DEFAULTS.maxAttempts) ∧
      (o.deleteFailedJobs = Field.undef → ex.deleteFailedJobs = none) ∧
      (o.deleteFailedJobs = Field.absent →
        ex.deleteFailedJobs = some DEFAULTS.deleteFailedJobs) := by
  refine ⟨{ adapter := a
            logger := (mergeOptions o).logger
            job := j
            maxAttempts := (mergeOptions o).maxAttempts
            deleteFailedJobs := (mergeOptions o).deleteFailedJobs },
    ?_, ?_, ?_, ?_, ?_, ?_, ?_⟩
  · simp [Executor.construct, mergeOptions, overrideField, ha, hj]
  · intro h
    simp [mergeOptions, overrideField, h]
  · intro h
    simp [mergeOptions, overrideField, h]
  · intro h
    simp [mergeOptions, overrideField, h]
  · intro h
    simp [mergeOptions, overrideField, h]
  · intro h
    simp [mergeOptions, overrideField, h]
  · intro h
    simp [mergeOptions, overrideField, h]

/-- C10 witness: options passing explicit `undefined` for `logger`,
`maxAttempts` and `deleteFailedJobs` construct an Executor storing
`undefined` for all three rather than the defaults. -/
theorem explicit_undefined_skips_defaults_witness :
    ∃ ex : Executor Nat, Executor.construct optionsUndefAll = Except.ok ex ∧
      ex.logger = none ∧ ex.maxAttempts = none ∧
      ex.deleteFailedJobs = none := by
  obtain ⟨ex, hok, hlog, _, hmax, _, hdel, _⟩ :=
    explicit_undefined_skips_defaults optionsUndefAll natAdapter sampleJob
      rfl rfl
  exact ⟨ex, hok, hlog rfl, hmax rfl, hdel rfl⟩

end Redwood
